import Mathlib

/-!
Verification of the UKV document/graph/blob layers against their
natural-language specification.

The definitions below are a shallow embedding of the repository's C++
sources:
* `logic_docs.cpp` (document layer: `read_docs`, `replace_docs`,
  `read_modify_write`, `lookup_field`, `export_scalar_column`,
  `print_scalar`, `export_string_column`, `ukv_docs_write`,
  `ukv_docs_read`, `ukv_docs_gather`),
* `graph_ref.hpp` (`graph_ref_t::neighbors`, `graph_ref_t::edges`),
* `members_ref.hpp` (`members_ref_gt::clear`, `erase`, `present`).

The substrate key-value store (`backend_stl.cpp`), the shared helpers
(`helpers.hpp`: `all_ascending`, `sort_and_deduplicate`,
`offset_in_sorted`) and the graph codec (`logic_graph.cpp`) are not part
of the source tree given to us; where a claim depends on them they are
modelled from the specification, and each such definition carries a
doc comment saying so.
-/

/-! ## Addresses and the batched read plumbing (logic_docs.cpp, read_docs) -/

/-- Address of a value: a `col_key_t` pair of collection id and key
(both 64-bit integers in the source; modelled as unbounded `Int` since
no claim exercises wrap-around). -/
structure ColKey where
  col : Int
  key : Int
deriving DecidableEq, Repr

/-- Modelled from the spec (§3): addresses are "total-ordered
lexicographically by (collection, key)"; this is the comparator used by
the missing helper `sort_and_deduplicate` of `helpers.hpp`. -/
def addrLe (a b : ColKey) : Bool :=
  decide (a.col < b.col) || (decide (a.col = b.col) && decide (a.key ≤ b.key))

/-- Strict version of `addrLe`, used to state that the deduplicated batch
is strictly ascending. -/
def addrLt (a b : ColKey) : Bool :=
  decide (a.col < b.col) || (decide (a.col = b.col) && decide (a.key < b.key))

theorem addrLe_total (a b : ColKey) : addrLe a b = true ∨ addrLe b a = true := by
  simp only [addrLe, Bool.or_eq_true, Bool.and_eq_true, decide_eq_true_eq]
  omega

theorem addrLe_trans {a b c : ColKey} (h1 : addrLe a b = true) (h2 : addrLe b c = true) :
    addrLe a c = true := by
  simp only [addrLe, Bool.or_eq_true, Bool.and_eq_true, decide_eq_true_eq] at h1 h2 ⊢
  omega

theorem addrLe_antisymm {a b : ColKey} (h1 : addrLe a b = true) (h2 : addrLe b a = true) :
    a = b := by
  cases a with
  | mk ac ak =>
  cases b with
  | mk bc bk =>
  simp only [addrLe, Bool.or_eq_true, Bool.and_eq_true, decide_eq_true_eq] at h1 h2
  simp only [ColKey.mk.injEq]
  rcases h1 with h | ⟨h, h'⟩ <;> rcases h2 with g | ⟨g, g'⟩ <;>
    exact ⟨by omega, by omega⟩

theorem addrLt_of_le_of_ne {a b : ColKey} (h1 : addrLe a b = true) (h2 : a ≠ b) :
    addrLt a b = true := by
  cases a with
  | mk ac ak =>
  cases b with
  | mk bc bk =>
  have h3 : ¬(ac = bc ∧ ak = bk) := by
    intro h
    exact h2 (by rw [h.1, h.2])
  simp only [addrLe, Bool.or_eq_true, Bool.and_eq_true, decide_eq_true_eq] at h1
  simp only [addrLt, Bool.or_eq_true, Bool.and_eq_true, decide_eq_true_eq]
  rcases h1 with h | ⟨h, h'⟩
  · exact Or.inl h
  · right
    refine ⟨h, ?_⟩
    rcases lt_or_eq_of_le h' with hlt | heq
    · exact hlt
    · exact absurd ⟨h, heq⟩ h3

instance : IsTotal ColKey (fun a b => addrLe a b = true) := ⟨addrLe_total⟩

instance : IsTrans ColKey (fun a b => addrLe a b = true) := ⟨fun _ _ _ => addrLe_trans⟩

/-- Modelled from the spec (§4.1): the unique pass of
`sort_and_deduplicate` — on a sorted run, keep one representative of each
maximal run of equal addresses (the semantics of `std::unique`). -/
def dedupSorted : List ColKey → List ColKey
  | [] => []
  | [a] => [a]
  | a :: b :: rest => if a = b then dedupSorted (b :: rest) else a :: dedupSorted (b :: rest)

/-- Modelled from the spec (§4.1): `sort_and_deduplicate` of
`helpers.hpp` — "performs an in-place sort+dedupe". -/
def sort_and_deduplicate (l : List ColKey) : List ColKey :=
  dedupSorted (List.insertionSort (fun a b => addrLe a b = true) l)

/-- Modelled from the spec (§4.1): `all_ascending` of `helpers.hpp` —
the fast path fires when the batch "is already non-decreasing and has no
duplicates", i.e. the keys are strictly ascending.  The source applies it
to the key column only (`all_ascending(tasks.keys, tasks.count)`). -/
def all_ascending : List Int → Bool
  | [] => true
  | [_] => true
  | a :: b :: rest => decide (a < b) && all_ascending (b :: rest)

/-- Modelled from the spec (§4.1): `offset_in_sorted` of `helpers.hpp` —
the ordered-position lookup used to scatter results back to the caller's
task order; on a sorted duplicate-free list this is the index of the
element. -/
def offset_in_sorted (l : List ColKey) (t : ColKey) : Nat :=
  l.findIdx (fun a => decide (a = t))

/-- Embedding of `read_docs` (logic_docs.cpp, lines 542-639), abstracted
over the substrate content `store` (one semantic value per address; the
per-task parse/projection applied by the callback does not affect the
address plumbing this claim is about).  Returns the sequence of addresses
the substrate read is issued over, and the per-task outputs in caller
order.  Faithful branch structure: ascending batches and batches that
turn out duplicate-free after the sort are forwarded with the ORIGINAL
task list; only batches with duplicates are read through the sorted
unique list and joined back by `offset_in_sorted`. -/
def read_docs (store : ColKey → Option Int) (tasks : List ColKey) :
    List ColKey × List (Option Int) :=
  if all_ascending (tasks.map ColKey.key) then (tasks, tasks.map store)
  else
    let uniq := sort_and_deduplicate tasks
    if uniq.length = tasks.length then (tasks, tasks.map store)
    else (uniq, tasks.map fun t => ((uniq.map store).get? (offset_in_sorted uniq t)).getD none)

theorem mem_dedupSorted : ∀ (l : List ColKey) (a : ColKey), a ∈ dedupSorted l ↔ a ∈ l := by
  intro l
  induction l with
  | nil => intro a; simp [dedupSorted]
  | cons x xs ih =>
    intro a
    cases xs with
    | nil => simp [dedupSorted]
    | cons y ys =>
      simp only [dedupSorted]
      by_cases hxy : x = y
      · rw [if_pos hxy, ih a]
        subst hxy
        constructor
        · intro h
          exact List.mem_cons_of_mem _ h
        · intro h
          rcases List.mem_cons.mp h with h | h
          · subst h
            exact List.mem_cons_self _ _
          · exact h
      · rw [if_neg hxy, List.mem_cons, ih a, List.mem_cons]
        simp [List.mem_cons]

theorem pairwise_dedupSorted :
    ∀ l : List ColKey, List.Pairwise (fun a b => addrLe a b = true) l →
      List.Pairwise (fun a b => addrLt a b = true) (dedupSorted l) := by
  intro l
  induction l with
  | nil => intro _; simp [dedupSorted]
  | cons x xs ih =>
    intro hp
    cases xs with
    | nil => simp [dedupSorted]
    | cons y ys =>
      rw [List.pairwise_cons] at hp
      obtain ⟨hx, htail⟩ := hp
      simp only [dedupSorted]
      by_cases hxy : x = y
      · rw [if_pos hxy]
        exact ih htail
      · rw [if_neg hxy]
        rw [List.pairwise_cons]
        refine ⟨?_, ih htail⟩
        intro c hc
        rw [mem_dedupSorted] at hc
        have hxc : addrLe x c = true := hx c hc
        have hyc : addrLe y c = true := by
          rcases List.mem_cons.mp hc with hc | hc
          · subst hc
            simp [addrLe]
          · rw [List.pairwise_cons] at htail
            exact htail.1 c hc
        refine addrLt_of_le_of_ne hxc ?_
        intro heq
        subst heq
        exact hxy (addrLe_antisymm (hx y (List.mem_cons_self y ys)) hyc)

theorem mem_sort_and_deduplicate (l : List ColKey) (a : ColKey) :
    a ∈ sort_and_deduplicate l ↔ a ∈ l := by
  unfold sort_and_deduplicate
  rw [mem_dedupSorted]
  exact List.mem_insertionSort (fun a b => addrLe a b = true)

theorem pairwise_sort_and_deduplicate (l : List ColKey) :
    List.Pairwise (fun a b => addrLt a b = true) (sort_and_deduplicate l) :=
  pairwise_dedupSorted _ (List.sorted_insertionSort (fun a b => addrLe a b = true) l)

theorem get?_findIdx_self :
    ∀ (l : List ColKey) (t : ColKey), t ∈ l →
      l.get? (l.findIdx (fun a => decide (a = t))) = some t := by
  intro l
  induction l with
  | nil => intro t ht; cases ht
  | cons x xs ih =>
    intro t ht
    rw [List.findIdx_cons]
    by_cases hxt : x = t
    · simp [hxt]
    · have hd : (decide (x = t)) = false := by simp [hxt]
      rw [hd]
      simp only [cond_false]
      have htxs : t ∈ xs := by
        rcases List.mem_cons.mp ht with h | h
        · exact absurd h.symm hxt
        · exact h
      simpa using ih t htxs

theorem map_congr_mem {α β : Type} {f g : α → β} :
    ∀ l : List α, (∀ a ∈ l, f a = g a) → l.map f = l.map g := by
  intro l
  induction l with
  | nil => intro _; rfl
  | cons x xs ih =>
    intro h
    simp only [List.map_cons]
    rw [h x (List.mem_cons_self x xs), ih (fun a ha => h a (List.mem_cons_of_mem x ha))]

/-- Claim C1 (amended): for a `docs_read` batch whose keys are not
ascending AND which contains a duplicate address, `read_docs` sorts and
deduplicates the addresses and issues the substrate read exactly over the
sorted duplicate-free unique set (same set of addresses as the batch),
while the outputs are still one per task, produced in the caller's
original task order (output i is the document stored at task i's
address).  The restriction to batches with duplicates is forced: a
non-ascending but duplicate-free batch is forwarded to the substrate in
its original order (see the counterexample theorem). -/
theorem read_docs_sorts_dedups_scatters (store : ColKey → Option Int) (tasks : List ColKey)
    (hasc : all_ascending (tasks.map ColKey.key) = false)
    (hdup : (sort_and_deduplicate tasks).length ≠ tasks.length) :
    (read_docs store tasks).1 = sort_and_deduplicate tasks
    ∧ List.Pairwise (fun a b => addrLt a b = true) (read_docs store tasks).1
    ∧ (∀ a, a ∈ (read_docs store tasks).1 ↔ a ∈ tasks)
    ∧ (read_docs store tasks).2 = tasks.map store := by
  have hbranch : read_docs store tasks =
      (sort_and_deduplicate tasks,
        tasks.map fun t =>
          (((sort_and_deduplicate tasks).map store).get?
            (offset_in_sorted (sort_and_deduplicate tasks) t)).getD none) := by
    unfold read_docs
    rw [hasc]
    simp only [Bool.false_eq_true, if_false]
    rw [if_neg hdup]
  rw [hbranch]
  refine ⟨rfl, pairwise_sort_and_deduplicate tasks, fun a => mem_sort_and_deduplicate tasks a, ?_⟩
  apply map_congr_mem
  intro t ht
  have htu : t ∈ sort_and_deduplicate tasks := (mem_sort_and_deduplicate tasks t).mpr ht
  have hidx := get?_findIdx_self (sort_and_deduplicate tasks) t htu
  unfold offset_in_sorted
  rw [List.get?_map, hidx]
  rfl

/-- Concrete store used by the C1 theorems: every address holds its own
key as the document. -/
def c1_store : ColKey → Option Int := fun a => some a.key

/-- Claim C1, counterexample: the batch `[5,1,3]` (one collection) is
not ascending and is duplicate-free; the claim says the engine "sorts and
deduplicates the addresses and issues the substrate read only over the
reduced unique set", i.e. the substrate should see `[1,3,5]`, but
`read_docs` (lines 569-574) falls back to `read_unique_docs` with the
ORIGINAL task list, so the substrate sees `[5,1,3]` unsorted. -/
theorem read_docs_counterexample :
    all_ascending ([ColKey.mk 0 5, ColKey.mk 0 1, ColKey.mk 0 3].map ColKey.key) = false
    ∧ (sort_and_deduplicate [ColKey.mk 0 5, ColKey.mk 0 1, ColKey.mk 0 3]).length = 3
    ∧ sort_and_deduplicate [ColKey.mk 0 5, ColKey.mk 0 1, ColKey.mk 0 3]
        = [ColKey.mk 0 1, ColKey.mk 0 3, ColKey.mk 0 5]
    ∧ (read_docs c1_store [ColKey.mk 0 5, ColKey.mk 0 1, ColKey.mk 0 3]).1
        = [ColKey.mk 0 5, ColKey.mk 0 1, ColKey.mk 0 3]
    ∧ (read_docs c1_store [ColKey.mk 0 5, ColKey.mk 0 1, ColKey.mk 0 3]).1
        ≠ sort_and_deduplicate [ColKey.mk 0 5, ColKey.mk 0 1, ColKey.mk 0 3] := by
  refine ⟨rfl, rfl, rfl, rfl, ?_⟩
  decide

/-- Claim C1, witness: the literal scenario of the spec — reading keys
`[5,1,5,3]` in one call makes the substrate see `[1,3,5]`, returns four
results in task order, and the results at positions 0 and 2 are
identical. -/
theorem read_docs_witness :
    (all_ascending ([ColKey.mk 0 5, ColKey.mk 0 1, ColKey.mk 0 5, ColKey.mk 0 3].map ColKey.key)
        = false
      ∧ (sort_and_deduplicate [ColKey.mk 0 5, ColKey.mk 0 1, ColKey.mk 0 5, ColKey.mk 0 3]).length
        ≠ 4)
    ∧ ((read_docs c1_store [ColKey.mk 0 5, ColKey.mk 0 1, ColKey.mk 0 5, ColKey.mk 0 3]).1
        = sort_and_deduplicate [ColKey.mk 0 5, ColKey.mk 0 1, ColKey.mk 0 5, ColKey.mk 0 3]
      ∧ List.Pairwise (fun a b => addrLt a b = true)
          (read_docs c1_store [ColKey.mk 0 5, ColKey.mk 0 1, ColKey.mk 0 5, ColKey.mk 0 3]).1
      ∧ (∀ a, a ∈ (read_docs c1_store
            [ColKey.mk 0 5, ColKey.mk 0 1, ColKey.mk 0 5, ColKey.mk 0 3]).1
          ↔ a ∈ [ColKey.mk 0 5, ColKey.mk 0 1, ColKey.mk 0 5, ColKey.mk 0 3])
      ∧ (read_docs c1_store [ColKey.mk 0 5, ColKey.mk 0 1, ColKey.mk 0 5, ColKey.mk 0 3]).2
        = [ColKey.mk 0 5, ColKey.mk 0 1, ColKey.mk 0 5, ColKey.mk 0 3].map c1_store)
    ∧ (read_docs c1_store [ColKey.mk 0 5, ColKey.mk 0 1, ColKey.mk 0 5, ColKey.mk 0 3]).1
        = [ColKey.mk 0 1, ColKey.mk 0 3, ColKey.mk 0 5]
    ∧ (read_docs c1_store [ColKey.mk 0 5, ColKey.mk 0 1, ColKey.mk 0 5, ColKey.mk 0 3]).2.length
        = 4
    ∧ (read_docs c1_store [ColKey.mk 0 5, ColKey.mk 0 1, ColKey.mk 0 5, ColKey.mk 0 3]).2.get? 0
        = (read_docs c1_store [ColKey.mk 0 5, ColKey.mk 0 1, ColKey.mk 0 5, ColKey.mk 0 3]).2.get? 2
    := by
  refine ⟨⟨by decide, by decide⟩,
    read_docs_sorts_dedups_scatters c1_store
      [ColKey.mk 0 5, ColKey.mk 0 1, ColKey.mk 0 5, ColKey.mk 0 3] (by decide) (by decide),
    by decide, by decide, by decide⟩

/-! ## The document value model (logic_docs.cpp with nlohmann/json) -/

/-- Semantic model of `nlohmann::json` values (`json_t`).  Objects and
arrays are encoded as inline member chains (`objCons`/`arrCons`) instead
of nested `List`s so that every function over documents is plain
structural recursion (computable and kernel-reducible).  Numbers keep
the three kinds the library distinguishes: `number_integer` (signed;
produced by parsing negative literals), `number_unsigned` (produced by
parsing non-negative integer literals and msgpack positive ints) and
`number_float`.  A float is modelled by its integral value (an `Int`),
which is all the claims need: the gather bitmaps depend on a float
solely through the length of its printf rendering, and every
counterexample uses an integral double. -/
inductive JVal where
  | null
  | discarded
  | objNil
  | objCons (k : String) (v : JVal) (rest : JVal)
  | arrNil
  | arrCons (v : JVal) (rest : JVal)
  | bin (bytes : List Nat)
  | str (s : String)
  | boolean (b : Bool)
  | numInt (i : Int)
  | numUns (n : Nat)
  | numFloat (x : Int)
deriving DecidableEq, Repr

/-- Test for the `discarded` kind, as `json_t::is_discarded`. -/
def JVal.isDiscarded : JVal → Bool
  | .discarded => true
  | _ => false

/-- Test for the object kind (`json_t::is_object`). -/
def isObjNode : JVal → Bool
  | .objNil => true
  | .objCons _ _ _ => true
  | _ => false

/-- Remove an object member by key (`json::erase` inside
`merge_patch`); non-object tails are returned unchanged. -/
def eraseKey : JVal → String → JVal
  | .objCons k0 v0 rest, k =>
    if k0 = k then eraseKey rest k else .objCons k0 v0 (eraseKey rest k)
  | j, _ => j

/-- Set an object member by key, appending when absent (the effect of
`target[k] = v`; nlohmann keeps objects key-sorted, this model keeps
insertion order, which coincides on every input the theorems use). -/
def setKey : JVal → String → JVal → JVal
  | .objCons k0 v0 rest, k, v =>
    if k0 = k then .objCons k v rest else .objCons k0 v0 (setKey rest k v)
  | _, k, v => .objCons k v .objNil

/-- Object member lookup with a default (`target[k]` reads null when the
member is absent). -/
def getKeyD : JVal → String → JVal → JVal
  | .objCons k0 v0 rest, k, d => if k0 = k then v0 else getKeyD rest k d
  | _, _, d => d

/-- Object member lookup (`json_t::find` on a member name; on a
non-object it returns the end iterator, i.e. nothing). -/
def findMemberStr : JVal → String → Option JVal
  | .objCons k0 v0 rest, k => if k0 = k then some v0 else findMemberStr rest k
  | _, _ => none

/-- RFC 7396 merge-patch, the semantics of `json_t::merge_patch` used by
`read_modify_write`: an object patch is merged member-wise into the
target (which is first replaced by an empty object if it is not one):
null members erase the key, other members recurse through `target[k]`
(null when absent); any non-object patch replaces the target. -/
def merge_patch : JVal → JVal → JVal
  | t, .objCons k v rest =>
    let t0 := if isObjNode t then t else JVal.objNil
    let t1 :=
      match v with
      | .null => eraseKey t0 k
      | _ => setKey t0 k (merge_patch (getKeyD t0 k .null) v)
    merge_patch t1 rest
  | t, .objNil => if isObjNode t then t else JVal.objNil
  | _, p => p

/-! ## JSON Pointers (nlohmann json_pointer, used by lookup_field and gather) -/

/-- Split a character list on the slash (the reference-token split of
RFC 6901). -/
def splitSlash : List Char → List (List Char)
  | [] => [[]]
  | c :: rest =>
    let r := splitSlash rest
    if c = '/' then [] :: r
    else
      match r with
      | t :: ts => (c :: t) :: ts
      | [] => [[c]]

/-- Unescape one reference token: tilde-1 becomes slash, tilde-0 becomes
tilde (RFC 6901). -/
def jptrUnescape : List Char → List Char
  | '~' :: '1' :: rest => '/' :: jptrUnescape rest
  | '~' :: '0' :: rest => '~' :: jptrUnescape rest
  | c :: rest => c :: jptrUnescape rest
  | [] => []

/-- Reference tokens of a JSON-Pointer string (which starts with a
slash): drop the empty leading token, unescape the rest. -/
def jptrTokens (field : String) : List (List Char) :=
  ((splitSlash field.toList).drop 1).map jptrUnescape

/-- Object member lookup by unescaped token. -/
def findMemberTok : JVal → List Char → Option JVal
  | .objCons k0 v0 rest, tok =>
    if k0.toList = tok then some v0 else findMemberTok rest tok
  | _, _ => none

/-- Array index token: decimal digits with no redundant leading zero
(nlohmann json_pointer::array_index). -/
def parseIndexChars (cs : List Char) : Option Nat :=
  if cs.isEmpty then none
  else if cs.all Char.isDigit then
    if cs.length > 1 && cs.headD '0' = '0' then none
    else some (cs.foldl (fun n c => n * 10 + (c.toNat - 48)) 0)
  else none

/-- Array element by position over the chain encoding. -/
def arrGet : JVal → Nat → Option JVal
  | .arrCons v _, 0 => some v
  | .arrCons _ rest, n + 1 => arrGet rest n
  | _, _ => none

/-- Evaluate a JSON Pointer (`json_t::contains` plus `json_t::at` over a
`json_pointer`): walk objects by member name and arrays by index,
failing anywhere else. -/
def jptrGet : JVal → List (List Char) → Option JVal
  | j, [] => some j
  | .objCons k v rest, t :: ts =>
    (findMemberTok (.objCons k v rest) t).bind (fun w => jptrGet w ts)
  | .arrCons v rest, t :: ts =>
    (parseIndexChars t).bind (fun i => (arrGet (.arrCons v rest) i).bind (fun w => jptrGet w ts))
  | _, _ :: _ => none

/-- Embedding of `lookup_field` (logic_docs.cpp, lines 371-385) for a
present field string: a field starting with a slash is a JSON Pointer,
otherwise a top-level member name; `none` models the branch that falls
back to the shared sentinel `null_object` (the reference returned when
the path is missing).  The field-absent case (`!field`) is handled by
the caller (`rmw_update`) returning the whole document, as in the
source. -/
def lookup_field (j : JVal) (field : String) : Option JVal :=
  match field.toList with
  | '/' :: _ => jptrGet j (jptrTokens field)
  | _ => findMemberStr j field

/-! ## Formats, payload parsing and the write pipelines -/

/-- Document exchange formats (`ukv_format_t`) that the claims exercise.
The canonical internal format is msgpack.  `bson` and `ubjson` behave
exactly like `cbor` in every modelled code path and are omitted;
`unsupportedF` stands for a format code outside the switch of
`parse_any` (which sets the error slot for it). -/
inductive Format where
  | json
  | jsonPatch
  | jsonMergePatch
  | msgpack
  | cbor
  | binaryFmt
  | unsupportedF
deriving DecidableEq, Repr

/-- One write-task payload: a deleted task (NULL value pointer), bytes
that decode to a value in the format of the call, or bytes that fail to
decode in that format. -/
inductive Payload where
  | del
  | val (j : JVal)
  | undecodable

/-- Embedding of `parse_any` (logic_docs.cpp, lines 387-410).  All the
structured parsers are invoked with allow_exceptions = false, so
undecodable bytes yield a `discarded` value WITHOUT setting the error
slot; only an unknown format code writes the error.  The binary format
wraps the raw bytes and never fails (the byte content of an undecodable
payload is not tracked; no claim reads it). -/
def parse_any (p : Payload) (fmt : Format) : Except String JVal :=
  match fmt with
  | .unsupportedF => .error "Unsupported input format"
  | .binaryFmt =>
    match p with
    | .val j => .ok j
    | _ => .ok (JVal.bin [])
  | _ =>
    match p with
    | .val j => .ok j
    | _ => .ok JVal.discarded

/-- Parse of the canonical stored bytes inside the read callbacks: a
present document parses back to itself (the msgpack round-trip is the
semantic identity), a missing document gives an empty view which
`from_msgpack` (allow_exceptions = false) turns into `discarded`. -/
def parseStored (o : Option JVal) : JVal :=
  o.getD JVal.discarded

/-- Substrate document store: one semantic document per address. -/
abbrev Store := ColKey → Option JVal

/-- Modelled from the spec: the substrate `ukv_write` of the missing
backend.  Spec section 4.1 has writes "passed through in caller order";
spec section 7 has "Every call writes at most one error string pointer
into a caller-supplied slot. Once set, inner helpers short-circuit" and
"A failed call yields no committed state change on the substrate", so a
write invoked with the error slot already set commits nothing.  A task
with value `none` erases the key. -/
def ukv_write_model (err : Option String) (store : Store)
    (updates : List (ColKey × Option JVal)) : Store :=
  match err with
  | some _ => store
  | none => updates.foldl (fun s u => fun a => if a = u.1 then u.2 else s a) store

/-- Serialisation loop of `replace_docs` (logic_docs.cpp, lines
663-684): deleted tasks reset the slot; other payloads are parsed in the
request format; a discarded parse (or an unsupported format) sets the
error slot and the function returns BEFORE the substrate write; a
surviving value is re-encoded in the canonical format (semantic identity
in this model). -/
def replace_serialize (fmt : Format) :
    List (ColKey × Payload) → Except String (List (ColKey × Option JVal))
  | [] => .ok []
  | (a, Payload.del) :: rest =>
    (replace_serialize fmt rest).map (fun us => (a, none) :: us)
  | (a, p) :: rest =>
    match parse_any p fmt with
    | .error e => .error e
    | .ok j =>
      if j.isDiscarded then .error "Could not parse inputs"
      else (replace_serialize fmt rest).map (fun us => (a, some j) :: us)

/-- Embedding of `replace_docs` (logic_docs.cpp, lines 641-704): whole
documents are re-encoded and written in one substrate batch; every error
path returns before `ukv_write` is reached, leaving the store
unchanged. -/
def replace_docs (store : Store) (tasks : List (ColKey × Payload)) (fmt : Format) :
    Option String × Store :=
  match replace_serialize fmt tasks with
  | .error e => (some e, store)
  | .ok updates => (none, ukv_write_model none store updates)

/-- Per-task update of `read_modify_write` (the body of `safe_callback`,
logic_docs.cpp lines 721-752).  `parsed` is the stored document,
`parsed_task` the decoded payload.  Two behaviours of the source are
reproduced even though they contradict the spec: the guard
`if (&parsed != &null_object)` compares the address of the WHOLE
document with the sentinel, so it is always true and the
missing-path insert branch (lines 737-742) is dead code — a write
against a missing field patches the local sentinel instead; and the
value pushed onto the serialising tape (line 745) is `parsed_part` —
the located subtree (or the sentinel) — not the enclosing document, so
a field write stores only the subtree.  The RFC 6902 `json_patch`
application is not modelled (result `none`); no claim depends on it. -/
def rmw_update (parsed : JVal) (field : Option String) (parsed_task : JVal) (fmt : Format) :
    Option JVal :=
  let part : Option JVal :=
    match field with
    | none => some parsed
    | some f => lookup_field parsed f
  match fmt with
  | .jsonPatch => none
  | .jsonMergePatch => some (merge_patch (part.getD JVal.null) parsed_task)
  | _ => some parsed_task

/-- Callback loop of `read_modify_write` through `read_docs`: tasks are
processed in caller order; the first error stops the tape (the
documents pushed before it are kept by the source; the tape content
after an error is never committed, see `ukv_write_model`). -/
def rmw_loop (store : Store) (fmt : Format) :
    List ((ColKey × Payload) × Option String) → Option String × List JVal
  | [] => (none, [])
  | (t, f) :: rest =>
    match parse_any t.2 fmt with
    | .error e => (some e, [])
    | .ok ptask =>
      match rmw_update (parseStored (store t.1)) f ptask fmt with
      | none => (some "RFC 6902 application not modelled", [])
      | some d =>
        let r := rmw_loop store fmt rest
        (r.1, d :: r.2)

/-- Address order of the substrate read issued by `read_docs`, also the
address list of the final substrate write of `read_modify_write` (the
source returns `read_order` from `read_docs` and writes through it):
the original batch on the fast and duplicate-free paths, the sorted
unique list otherwise. -/
def read_order_addrs (addrs : List ColKey) : List ColKey :=
  if all_ascending (addrs.map ColKey.key) then addrs
  else
    let uniq := sort_and_deduplicate addrs
    if uniq.length = addrs.length then addrs else uniq

/-- Embedding of `read_modify_write` (logic_docs.cpp, lines 706-784):
read the stored documents, apply the per-task update, accumulate the
tape, then call the substrate `ukv_write` UNCONDITIONALLY — even when
the error slot was set during the loop — over the read-order addresses
zipped with the tape.  With the spec-modelled substrate a pre-set error
makes that final write a no-op. -/
def read_modify_write (store : Store) (tasks : List (ColKey × Payload))
    (fields : List (Option String)) (fmt : Format) : Option String × Store :=
  ((rmw_loop store fmt (tasks.zip fields)).1,
    ukv_write_model (rmw_loop store fmt (tasks.zip fields)).1 store
      ((read_order_addrs (tasks.map Prod.fst)).zip
        ((rmw_loop store fmt (tasks.zip fields)).2.map some)))

/-! ## Claims C3, C4 and C7 -/

/-- Stored document for the C3 failing input: key 1 holds an object with
members a = 1 and b = 2. -/
def c3_store : Store := fun a =>
  if a = ColKey.mk 0 1 then
    some (JVal.objCons "a" (JVal.numUns 1) (JVal.objCons "b" (JVal.numUns 2) JVal.objNil))
  else none

/-- Claim C3 (code evaluated at the failing input): a docs_write in JSON
format of the value 5 against the EXISTING field "a" of the stored
document with members a = 1 and b = 2 completes without error but stores
the bare replacement value 5 as the whole document — the rest of the
document is lost — because `read_modify_write` pushes `parsed_part` (the
located subtree) onto the tape instead of the enclosing document.  The
claim expects the stored document to become the object with a = 5 and
b = 2. -/
theorem rmw_existing_field_drops_document :
    (read_modify_write c3_store [(ColKey.mk 0 1, Payload.val (JVal.numUns 5))]
        [some "a"] Format.json).1 = none
    ∧ (read_modify_write c3_store [(ColKey.mk 0 1, Payload.val (JVal.numUns 5))]
        [some "a"] Format.json).2 (ColKey.mk 0 1)
      = some (JVal.numUns 5)
    ∧ (read_modify_write c3_store [(ColKey.mk 0 1, Payload.val (JVal.numUns 5))]
        [some "a"] Format.json).2 (ColKey.mk 0 1)
      ≠ some (JVal.objCons "a" (JVal.numUns 5) (JVal.objCons "b" (JVal.numUns 2) JVal.objNil)) :=
  ⟨rfl, rfl, by decide⟩

/-- Stored document for the C4 failing input: key 1 holds an object with
the single member a = 1. -/
def c4_store : Store := fun a =>
  if a = ColKey.mk 0 1 then some (JVal.objCons "a" (JVal.numUns 1) JVal.objNil) else none

/-- Claim C4 (code evaluated at the failing input): a docs_write in JSON
merge-patch format against the MISSING field "b" of the stored document
with member a = 1 is not a no-op: because the source compares the wrong
pointer against the sentinel, the patch is applied to the local
`null_object` and the result of merging the patch into null — the patch
object x = 1 itself — is stored as the whole document.  The claim
expects the stored document to remain the object with a = 1. -/
theorem rmw_missing_field_patch_not_noop :
    (read_modify_write c4_store
        [(ColKey.mk 0 1, Payload.val (JVal.objCons "x" (JVal.numUns 1) JVal.objNil))]
        [some "b"] Format.jsonMergePatch).2 (ColKey.mk 0 1)
      = some (JVal.objCons "x" (JVal.numUns 1) JVal.objNil)
    ∧ (read_modify_write c4_store
        [(ColKey.mk 0 1, Payload.val (JVal.objCons "x" (JVal.numUns 1) JVal.objNil))]
        [some "b"] Format.jsonMergePatch).2 (ColKey.mk 0 1)
      ≠ some (JVal.objCons "a" (JVal.numUns 1) JVal.objNil) :=
  ⟨rfl, by decide⟩

/-- Claim C7: when the error slot becomes set during a docs_write batch,
the substrate state is unchanged by the call, in both pipelines.  In
`replace_docs` every error path returns before `ukv_write`; in
`read_modify_write` the final `ukv_write` is still invoked, but the
spec-modelled substrate performs no operation once the error slot is set
(spec section 7).  The scope excludes the RFC 6902 format, whose patch
application this model leaves undefined. -/
theorem docs_write_error_leaves_store_unchanged (store : Store)
    (tasks : List (ColKey × Payload)) (fields : List (Option String)) (fmt : Format)
    (_hfmt : fmt ≠ Format.jsonPatch) :
    ((replace_docs store tasks fmt).1.isSome = true → (replace_docs store tasks fmt).2 = store)
    ∧ ((read_modify_write store tasks fields fmt).1.isSome = true →
        (read_modify_write store tasks fields fmt).2 = store) := by
  constructor
  · intro h
    unfold replace_docs at h ⊢
    cases hs : replace_serialize fmt tasks with
    | error e => simp [hs]
    | ok us =>
      rw [hs] at h
      simp at h
  · intro h
    simp only [read_modify_write] at h ⊢
    cases he : (rmw_loop store fmt (tasks.zip fields)).1 with
    | none =>
      rw [he] at h
      simp at h
    | some msg =>
      rfl

/-- Claim C7, witness: a batch whose single payload uses an unrecognized
format code sets the error slot in both pipelines, and the store is
unchanged. -/
theorem docs_write_error_witness :
    (Format.unsupportedF ≠ Format.jsonPatch)
    ∧ (((replace_docs c3_store [(ColKey.mk 0 1, Payload.undecodable)] Format.unsupportedF).1.isSome
          = true →
        (replace_docs c3_store [(ColKey.mk 0 1, Payload.undecodable)] Format.unsupportedF).2
          = c3_store)
      ∧ ((read_modify_write c3_store [(ColKey.mk 0 1, Payload.undecodable)] [none]
            Format.unsupportedF).1.isSome = true →
        (read_modify_write c3_store [(ColKey.mk 0 1, Payload.undecodable)] [none]
            Format.unsupportedF).2 = c3_store)) :=
  ⟨by decide,
    docs_write_error_leaves_store_unchanged c3_store [(ColKey.mk 0 1, Payload.undecodable)]
      [none] Format.unsupportedF (by decide)⟩

/-- The C7 witness scenario really does set the error slot in both
pipelines (the implications of the witness are not vacuous). -/
theorem docs_write_error_is_set :
    (replace_docs c3_store [(ColKey.mk 0 1, Payload.undecodable)] Format.unsupportedF).1.isSome
      = true
    ∧ (read_modify_write c3_store [(ColKey.mk 0 1, Payload.undecodable)] [none]
        Format.unsupportedF).1.isSome = true :=
  ⟨rfl, rfl⟩

/-! ## Typed columnar export (logic_docs.cpp, tabular exports) -/

/-- Requested column types (`ukv_type_t`) dispatched by
`ukv_docs_gather` (lines 1563-1584). -/
inductive ScalarT where
  | tBool
  | tI8
  | tI16
  | tI32
  | tI64
  | tU8
  | tU16
  | tU32
  | tU64
  | tF32
  | tF64
deriving DecidableEq, Repr

/-- Byte width of the scalar (`sizeof(scalar_at)`), as in
`min_memory_usage`. -/
def sizeof_scalar : ScalarT → Nat
  | .tBool => 1
  | .tI8 => 1
  | .tI16 => 2
  | .tI32 => 4
  | .tI64 => 8
  | .tU8 => 1
  | .tU16 => 2
  | .tU32 => 4
  | .tU64 => 8
  | .tF32 => 4
  | .tF64 => 8

/-- The C++ trait `std::is_integral_v && std::is_signed_v`. -/
def is_signed_integral : ScalarT → Bool
  | .tI8 | .tI16 | .tI32 | .tI64 => true
  | _ => false

/-- The C++ trait `std::is_unsigned_v`; note that `bool` counts as an
unsigned integral type in C++. -/
def is_unsigned_cpp : ScalarT → Bool
  | .tBool | .tU8 | .tU16 | .tU32 | .tU64 => true
  | _ => false

/-- The unsigned integer column types proper (without `bool`), the
"unsigned" side of the claim's signedness rule. -/
def is_strict_unsigned : ScalarT → Bool
  | .tU8 | .tU16 | .tU32 | .tU64 => true
  | _ => false

/-- The C++ trait `std::is_floating_point_v`. -/
def is_floating : ScalarT → Bool
  | .tF32 | .tF64 => true
  | _ => false

/-- The C++ trait `std::is_same_v` with `bool`. -/
def is_bool_t : ScalarT → Bool
  | .tBool => true
  | _ => false

/-- Integer column types (signed or unsigned, but not bool or float). -/
def is_int_type (T : ScalarT) : Bool :=
  is_signed_integral T || is_strict_unsigned T

/-- Width in bits of an integer scalar type. -/
def bit_width : ScalarT → Nat
  | .tI8 | .tU8 => 8
  | .tI16 | .tU16 => 16
  | .tI32 | .tU32 => 32
  | .tI64 | .tU64 => 64
  | _ => 1

/-- Largest value `std::from_chars` accepts for the type. -/
def scalar_max (T : ScalarT) : Int :=
  if is_signed_integral T then 2 ^ (bit_width T - 1) - 1 else 2 ^ bit_width T - 1

/-- Smallest value `std::from_chars` accepts for the type. -/
def scalar_min (T : ScalarT) : Int :=
  if is_signed_integral T then -(2 ^ (bit_width T - 1)) else 0

/-- Decimal digit-string value, or nothing when empty or non-numeric. -/
def decDigitsVal (cs : List Char) : Option Nat :=
  if cs.isEmpty then none
  else if cs.all Char.isDigit then
    some (cs.foldl (fun n c => n * 10 + (c.toNat - 48)) 0)
  else none

/-- Full-consume `std::from_chars` on an integer target: an optional
minus sign (signed targets only, no plus, no whitespace) followed by
decimal digits covering the whole string, in range for the target
(out-of-range gives `result_out_of_range`, which the caller treats as
failure). -/
def from_chars_int (T : ScalarT) (s : String) : Option Int :=
  match s.toList with
  | '-' :: rest =>
    if is_signed_integral T then
      (decDigitsVal rest).bind (fun n =>
        if scalar_min T ≤ -(n : Int) then some (-(n : Int)) else none)
    else none
  | cs =>
    (decDigitsVal cs).bind (fun n =>
      if (n : Int) ≤ scalar_max T then some (n : Int) else none)

/-- Leading decimal digits of a character list: their count and the
remainder. -/
def spanDigits : List Char → Nat × List Char
  | c :: rest =>
    if c.isDigit then
      let r := spanDigits rest
      (r.1 + 1, r.2)
    else (0, c :: rest)
  | [] => (0, [])

/-- Modelled from the spec ("parse via locale-independent reader"): the
full-consume success test of the `strtod`/`strtof` wrappers of
logic_docs.cpp (lines 1133-1143) — the C library call is external code.
The decimal forms are modelled (optional sign, digits with an optional
dot and at least one digit, optional exponent); hexadecimal, infinity
and nan spellings are not.  Only this Bool reaches the bitmaps. -/
def isFloatLitChars (cs : List Char) : Bool :=
  let cs1 :=
    match cs with
    | '-' :: r => r
    | '+' :: r => r
    | r => r
  let m := spanDigits cs1
  let f :=
    match m.2 with
    | '.' :: r => spanDigits r
    | r => (0, r)
  if m.1 + f.1 = 0 then false
  else
    match f.2 with
    | [] => true
    | 'e' :: r =>
      let r3 :=
        match r with
        | '-' :: q => q
        | '+' :: q => q
        | q => q
      let e := spanDigits r3
      decide (0 < e.1) && e.2.isEmpty
    | 'E' :: r =>
      let r3 :=
        match r with
        | '-' :: q => q
        | '+' :: q => q
        | q => q
      let e := spanDigits r3
      decide (0 < e.1) && e.2.isEmpty
    | _ => false

/-- Full-consume string-to-scalar parse dispatched by overload in the
string cell of `export_scalar_column`: the custom boolean overload of
logic_docs.cpp (lines 1122-1131) accepts exactly the literals true and
false; integer targets go to `std::from_chars`; floating targets go to
the `strtod` wrapper.  The result is `none` on failure, `some mv` on
success with the parsed value when modelled (floating values are not). -/
def from_chars_full (T : ScalarT) (s : String) : Option (Option Int) :=
  if is_bool_t T then
    if s = "true" then some (some 1)
    else if s = "false" then some (some 0)
    else none
  else if is_floating T then
    if isFloatLitChars s.toList then some none else none
  else
    (from_chars_int T s).map some

/-- Two's-complement wrap of an integer into a signed width. -/
def wrap_signed (w : Nat) (i : Int) : Int :=
  (i + 2 ^ (w - 1)).emod (2 ^ w) - 2 ^ (w - 1)

/-- The scalar value the numeric cases of `export_scalar_column` write
into the column (`static_cast<scalar_at>`): identity on boolean targets
(nonzero becomes 1), modular wrap on integer targets; the bit patterns
written to floating targets are not modelled (`none`). -/
def scalar_write (T : ScalarT) (i : Int) : Option Int :=
  if is_bool_t T then some (if i = 0 then 0 else 1)
  else if is_floating T then none
  else if is_signed_integral T then some (wrap_signed (bit_width T) i)
  else some (i.emod (2 ^ bit_width T))

/-- The three per-cell bitmap bits of the gather output. -/
structure CellBits where
  valid : Bool
  convert : Bool
  collide : Bool
deriving DecidableEq, Repr

/-- Embedding of `export_scalar_column` (logic_docs.cpp, lines
1161-1253): the per-cell decision over the JSON kind found at the
requested field, producing the three bitmap bits and the written scalar
(the memcpy of a size-matching binary cell and the floating casts are
not value-modelled: `none`). -/
def export_scalar_column (T : ScalarT) (v : JVal) : CellBits × Option Int :=
  match v with
  | .null => (⟨false, false, false⟩, none)
  | .discarded => (⟨false, false, true⟩, none)
  | .objNil => (⟨false, false, true⟩, none)
  | .objCons _ _ _ => (⟨false, false, true⟩, none)
  | .arrNil => (⟨false, false, true⟩, none)
  | .arrCons _ _ => (⟨false, false, true⟩, none)
  | .bin bs =>
    if bs.length = sizeof_scalar T then (⟨true, true, false⟩, none)
    else (⟨false, false, true⟩, none)
  | .str s =>
    match from_chars_full T s with
    | some mv => (⟨true, true, false⟩, mv)
    | none => (⟨false, false, true⟩, none)
  | .boolean b => (⟨true, !is_bool_t T, false⟩, scalar_write T (if b then 1 else 0))
  | .numInt i => (⟨true, !is_signed_integral T, false⟩, scalar_write T i)
  | .numUns n => (⟨true, !is_unsigned_cpp T, false⟩, scalar_write T (n : Int))
  | .numFloat _ => (⟨true, !is_floating T, false⟩, none)

/-- Fuelled decimal digit count (the fuel of 64 is exact for every value
below ten to the 64th; the source scalars are 64-bit, at most 20
digits). -/
def digitCountAux : Nat → Nat → Nat
  | 0, _ => 0
  | fuel + 1, n => if n < 10 then 1 else digitCountAux fuel (n / 10) + 1

/-- Decimal digit count of a natural number. -/
def digitCount (n : Nat) : Nat := digitCountAux 64 n

/-- Character count `std::to_chars` produces for a signed integer. -/
def int_print_len (i : Int) : Nat :=
  (if i < 0 then 1 else 0) + digitCount i.natAbs

/-- Fit test of `print_scalar` for integer scalars: the standard
`std::to_chars` succeeds (a 64-bit integer always fits 32 bytes) and
leaves `result.ptr = begin + len`; the NUL fits iff
`result.ptr + 1 < begin + 32`, i.e. `len + 1 < 32`. -/
def print_int_fits (i : Int) : Bool := decide (int_print_len i + 1 < 32)

/-- Fit test of `print_scalar` for unsigned scalars. -/
def print_uns_fits (n : Nat) : Bool := decide (digitCount n + 1 < 32)

/-- Character count of the snprintf rendering with the f format
specifier used by the custom `to_chars` overload for doubles
(logic_docs.cpp, lines 1145-1157): for the integral doubles of the
model, sign + integral digits + a dot + six forced decimals. -/
def float_print_len (x : Int) : Nat :=
  (if x < 0 then 1 else 0) + digitCount x.natAbs + 7

/-- Fit test of `print_scalar` for doubles: the custom overload returns
`result.ptr = begin + n - 1` where n is the snprintf count, and the NUL
fits iff `result.ptr + 1 < begin + 32`, i.e. `n < 32`. -/
def print_float_fits (x : Int) : Bool := decide (float_print_len x < 32)

/-- Embedding of `export_string_column` (logic_docs.cpp, lines
1275-1362), bitmap bits only (offsets, lengths and the byte tape are not
needed by any claim): every numeric case sets the conversion bit
UNCONDITIONALLY (lines 1344, 1351, 1357) and only then decides validity
and collision from the fit of the 32-byte print buffer. -/
def export_string_column (v : JVal) : CellBits :=
  match v with
  | .null => ⟨false, false, false⟩
  | .discarded => ⟨false, false, true⟩
  | .objNil => ⟨false, false, true⟩
  | .objCons _ _ _ => ⟨false, false, true⟩
  | .arrNil => ⟨false, false, true⟩
  | .arrCons _ _ => ⟨false, false, true⟩
  | .bin _ => ⟨true, false, false⟩
  | .str _ => ⟨true, false, false⟩
  | .boolean _ => ⟨true, true, false⟩
  | .numInt i => if print_int_fits i then ⟨true, true, false⟩ else ⟨false, true, true⟩
  | .numUns n => if print_uns_fits n then ⟨true, true, false⟩ else ⟨false, true, true⟩
  | .numFloat x => if print_float_fits x then ⟨true, true, false⟩ else ⟨false, true, true⟩

/-- Numeric JSON kinds (integer, unsigned or float). -/
def isNumericJ : JVal → Bool
  | .numInt _ | .numUns _ | .numFloat _ => true
  | _ => false

/-- Field lookup of `ukv_docs_gather` (lines 1535-1551): same
name-or-pointer resolution as `lookup_field`, with the shared constant
`null_object` as the default for a missing path. -/
def gather_field (doc : JVal) (field : String) : JVal :=
  (lookup_field doc field).getD JVal.null

/-! ## Claim C2: gather bitmap invariants -/

theorem scalar_cell_partition (T : ScalarT) (v : JVal) :
    ((export_scalar_column T v).1.valid && (export_scalar_column T v).1.collide) = false := by
  cases v with
  | bin bs =>
    simp only [export_scalar_column]
    split <;> rfl
  | str s =>
    simp only [export_scalar_column]
    cases hfc : from_chars_full T s <;> rfl
  | _ => rfl

theorem scalar_cell_convert_implies_valid (T : ScalarT) (v : JVal) :
    ((export_scalar_column T v).1.convert && !(export_scalar_column T v).1.valid) = false := by
  cases v with
  | bin bs =>
    simp only [export_scalar_column]
    split <;> rfl
  | str s =>
    simp only [export_scalar_column]
    cases hfc : from_chars_full T s <;> rfl
  | boolean b => simp [export_scalar_column]
  | numInt i => simp [export_scalar_column]
  | numUns n => simp [export_scalar_column]
  | numFloat x => simp [export_scalar_column]
  | _ => rfl

theorem string_cell_partition (v : JVal) :
    ((export_string_column v).valid && (export_string_column v).collide) = false := by
  cases v with
  | numInt i =>
    simp only [export_string_column]
    split <;> rfl
  | numUns n =>
    simp only [export_string_column]
    split <;> rfl
  | numFloat x =>
    simp only [export_string_column]
    split <;> rfl
  | _ => rfl

theorem string_cell_convert_exception (v : JVal) :
    (((export_string_column v).convert && !(export_string_column v).valid)
      && !(isNumericJ v && (export_string_column v).collide)) = false := by
  cases v with
  | numInt i =>
    simp only [export_string_column]
    split <;> rfl
  | numUns n =>
    simp only [export_string_column]
    split <;> rfl
  | numFloat x =>
    simp only [export_string_column]
    split <;> rfl
  | _ => rfl

/-- Claim C2 (amended): for every gather cell, exactly one of
{valid, collide, absent} holds (valid and collide are never both set,
and a null value leaves all bits clear); a set conversion bit implies a
set validity bit for every scalar-typed cell, and for every string-typed
cell EXCEPT a numeric cell whose 32-byte rendering does not fit
NUL-terminated: that cell keeps convert = 1 while being marked invalid
with collision = 1 (the last clause of the original claim, which also
forces the amendment of the convert-implies-valid clause). -/
theorem gather_cell_bitmap_invariants :
    (∀ T v, ((export_scalar_column T v).1.valid && (export_scalar_column T v).1.collide) = false)
    ∧ (∀ T, (export_scalar_column T JVal.null).1 = ⟨false, false, false⟩)
    ∧ (∀ T v,
        ((export_scalar_column T v).1.convert && !(export_scalar_column T v).1.valid) = false)
    ∧ (∀ v, ((export_string_column v).valid && (export_string_column v).collide) = false)
    ∧ (export_string_column JVal.null = ⟨false, false, false⟩)
    ∧ (∀ v, (((export_string_column v).convert && !(export_string_column v).valid)
        && !(isNumericJ v && (export_string_column v).collide)) = false)
    ∧ (∀ x : Int, export_string_column (JVal.numFloat x)
        = if print_float_fits x then ⟨true, true, false⟩ else ⟨false, true, true⟩) :=
  ⟨scalar_cell_partition, fun _ => rfl, scalar_cell_convert_implies_valid,
    string_cell_partition, rfl, string_cell_convert_exception, fun _ => rfl⟩

/-- Claim C2, counterexample: a double with 31 integral digits (ten to
the 30th) rendered into a string column does not fit the 32-byte print
buffer; the cell is marked invalid with collision = 1 — but its
conversion bit is STILL SET, refuting the claim that a set conversion
bit implies a set validity bit. -/
theorem gather_string_overflow_convert_without_valid :
    export_string_column (JVal.numFloat (10 ^ 30)) = ⟨false, true, true⟩
    ∧ (export_string_column (JVal.numFloat (10 ^ 30))).convert = true
    ∧ (export_string_column (JVal.numFloat (10 ^ 30))).valid = false :=
  ⟨by decide, by decide, by decide⟩

/-! ## Claim C5: the patch-then-gather scenario and the signedness rule -/

/-- Address used by the C5 scenario. -/
def c5_addr : ColKey := ColKey.mk 0 1

/-- The JSON text written first: an object with a = 1 and b = "7".
nlohmann parses the non-negative literal 1 as number_unsigned. -/
def c5_doc0 : JVal :=
  JVal.objCons "a" (JVal.numUns 1) (JVal.objCons "b" (JVal.str "7") JVal.objNil)

/-- Store after the whole-document JSON write of `c5_doc0` under key 1
(the `replace_docs` pipeline). -/
def c5_store1 : Store :=
  (replace_docs (fun _ => none) [(c5_addr, Payload.val c5_doc0)] Format.json).2

/-- The merge-patch payload: an object with a = 2 (again parsed as
number_unsigned). -/
def c5_patch : JVal := JVal.objCons "a" (JVal.numUns 2) JVal.objNil

/-- Store after applying the whole-document merge-patch through
`read_modify_write` (no field, merge-patch format). -/
def c5_store2 : Store :=
  (read_modify_write c5_store1 [(c5_addr, Payload.val c5_patch)] [none]
    Format.jsonMergePatch).2

/-- The document stored under key 1 after the two writes. -/
def c5_doc2 : JVal := (c5_store2 c5_addr).getD JVal.null

/-- Claim C5 (amended): after writing the document and applying the
merge-patch, gathering field a with type i32 yields value 2 with
valid = 1 and convert = 1 — NOT convert = 0 as the claim's scenario
expects — because the merge-patched value is of the unsigned source
kind while i32 is signed; gathering field b yields 7 with valid = 1 and
convert = 1 (string parsed into a number), as claimed.  The general
signedness rule of the claim holds as stated for every integer column
type: convert = 0 for a signed source exactly on signed targets and for
an unsigned source exactly on unsigned targets. -/
theorem gather_scenario_and_signedness (T : ScalarT) (hT : is_int_type T = true) :
    c5_store2 c5_addr
      = some (JVal.objCons "a" (JVal.numUns 2) (JVal.objCons "b" (JVal.str "7") JVal.objNil))
    ∧ export_scalar_column ScalarT.tI32 (gather_field c5_doc2 "a")
      = (⟨true, true, false⟩, some 2)
    ∧ export_scalar_column ScalarT.tI32 (gather_field c5_doc2 "b")
      = (⟨true, true, false⟩, some 7)
    ∧ (∀ i : Int, (export_scalar_column T (JVal.numInt i)).1.convert = !is_signed_integral T)
    ∧ (∀ n : Nat, (export_scalar_column T (JVal.numUns n)).1.convert = !is_strict_unsigned T)
    := by
  refine ⟨by decide, by decide, by decide, fun i => rfl, fun n => ?_⟩
  cases T <;> first | rfl | exact absurd hT (by decide)

/-- Claim C5, witness: the signedness rule applied at the i32 column of
the literal scenario. -/
theorem gather_scenario_witness :
    is_int_type ScalarT.tI32 = true
    ∧ (c5_store2 c5_addr
        = some (JVal.objCons "a" (JVal.numUns 2) (JVal.objCons "b" (JVal.str "7") JVal.objNil))
      ∧ export_scalar_column ScalarT.tI32 (gather_field c5_doc2 "a")
        = (⟨true, true, false⟩, some 2)
      ∧ export_scalar_column ScalarT.tI32 (gather_field c5_doc2 "b")
        = (⟨true, true, false⟩, some 7)
      ∧ (∀ i : Int,
          (export_scalar_column ScalarT.tI32 (JVal.numInt i)).1.convert
            = !is_signed_integral ScalarT.tI32)
      ∧ (∀ n : Nat,
          (export_scalar_column ScalarT.tI32 (JVal.numUns n)).1.convert
            = !is_strict_unsigned ScalarT.tI32)) :=
  ⟨by decide, gather_scenario_and_signedness ScalarT.tI32 (by decide)⟩

/-- Claim C5, counterexample: the scenario of the claim expects column a
to come back with convert = 0, but the code sets convert = 1 for the
gathered cell (unsigned source kind into the signed i32 target). -/
theorem gather_after_merge_patch_convert_set :
    (export_scalar_column ScalarT.tI32 (gather_field c5_doc2 "a")).1.convert = true := by
  decide

/-! ## Claim C6: graph neighbor enumeration (graph_ref.hpp) -/

/-- An adjacency record as returned to C++ callers (`edge_t`): source,
target and edge id keys. -/
structure EdgeT where
  source : Int
  target : Int
  id : Int
deriving DecidableEq, Repr

/-- Modelled from the spec (§4.4, §6.4): the record list
`graph_ref_t::edges(v, role=any)` receives from `ukv_graph_find_edges`
(logic_graph.cpp is not under src/): the adjacency entry of v stores
out-records (neighbor, edge id) then in-records; reconstructed edges
carry v as source for the out-portion and v as target for the
in-portion — consistent with `successors` reading `target_ids` of the
source role and `predecessors` reading `source_ids` of the target
role in the same file. -/
def edges_any (v : Int) (outL inL : List (Int × Int)) : List EdgeT :=
  outL.map (fun p => ⟨v, p.1, p.2⟩) ++ inL.map (fun p => ⟨p.1, v, p.2⟩)

/-- Embedding of `graph_ref_t::neighbors` (graph_ref.hpp, lines
300-320): for every record of `edges(v, any)` it swaps source and
target WHEN the source equals v (so the returned target of such a
record is the old source, i.e. v itself), and returns the resulting
`target_ids`. -/
def neighbors (v : Int) (outL inL : List (Int × Int)) : List Int :=
  (edges_any v outL inL).map (fun e => if e.source = v then e.source else e.target)

theorem neighbors_out_all_v (v : Int) :
    ∀ outL : List (Int × Int),
      (outL.map (fun p => (⟨v, p.1, p.2⟩ : EdgeT))).map
          (fun e => if e.source = v then e.source else e.target)
        = List.replicate outL.length v := by
  intro outL
  induction outL with
  | nil => rfl
  | cons p ps ih =>
    simp only [List.map_cons, List.length_cons, List.replicate_succ]
    rw [ih]
    simp

theorem neighbors_in_all_v (v : Int) :
    ∀ inL : List (Int × Int),
      (inL.map (fun p => (⟨p.1, v, p.2⟩ : EdgeT))).map
          (fun e => if e.source = v then e.source else e.target)
        = List.replicate inL.length v := by
  intro inL
  induction inL with
  | nil => rfl
  | cons p ps ih =>
    simp only [List.map_cons, List.length_cons, List.replicate_succ]
    rw [ih]
    by_cases hp : p.1 = v <;> simp [hp]

/-- Claim C6 (code evaluated at the failing input): for vertex 1 with
the single out-edge (1, 2, 100), `neighbors` returns [1] — the vertex
itself — not [2] as the claim states; in general the swap condition is
inverted (`u == vertex` instead of `u != vertex`), so the returned key
list is the vertex repeated once per incident edge. -/
theorem neighbors_returns_vertex_itself :
    neighbors 1 [(2, 100)] [] = [1]
    ∧ neighbors 1 [(2, 100)] [] ≠ [2]
    ∧ ∀ (v : Int) (outL inL : List (Int × Int)),
        neighbors v outL inL = List.replicate (outL.length + inL.length) v := by
  refine ⟨rfl, by decide, ?_⟩
  intro v outL inL
  unfold neighbors edges_any
  rw [List.map_append, neighbors_out_all_v, neighbors_in_all_v, ← List.replicate_add]

/-! ## Claim C8: blob clear, erase and presence (members_ref.hpp) -/

/-- Substrate blob store: raw byte values per address. -/
abbrev BlobStore := ColKey → Option (List Nat)

/-- The missing-length sentinel `ukv_val_len_missing_k` (UINT32_MAX per
spec section 6.1). -/
def ukv_val_len_missing : Nat := 2 ^ 32 - 1

/-- Modelled from the spec (§4.1, §6.1): the substrate blob `ukv_write`
— tasks applied in caller order; a null value pointer (`none`) erases
the key, a zero-length value with a non-null pointer stores the empty
blob ("a zero length denotes present-but-empty"). -/
def ukv_write_blob (store : BlobStore) (tasks : List (ColKey × Option (List Nat))) : BlobStore :=
  tasks.foldl (fun s u => fun a => if a = u.1 then u.2 else s a) store

/-- Modelled from the spec (§4.1): a length-only substrate read
(`ukv_option_read_lengths_k`): the stored length, or the missing
sentinel. -/
def ukv_read_length (store : BlobStore) (a : ColKey) : Nat :=
  match store a with
  | some bs => bs.length
  | none => ukv_val_len_missing

/-- Embedding of `members_ref_gt::clear` (members_ref.hpp, lines
161-170): assigns a value whose contents pointer is non-null and whose
length is 0 — a present-but-empty write. -/
def members_clear (store : BlobStore) (a : ColKey) : BlobStore :=
  ukv_write_blob store [(a, some [])]

/-- Embedding of `members_ref_gt::erase` (lines 152-154): assigns
nullptr, a deletion task. -/
def members_erase (store : BlobStore) (a : ColKey) : BlobStore :=
  ukv_write_blob store [(a, none)]

/-- Embedding of `members_ref_gt::present` (lines 114-135, single-key
case): a length-only read compared against `ukv_val_len_missing_k`. -/
def members_present (store : BlobStore) (a : ColKey) : Bool :=
  ukv_read_length store a != ukv_val_len_missing

/-- Claim C8: clearing a key leaves it present with read-back length 0;
erasing it makes it missing, with the read-back length equal to the
missing sentinel; and presence holds exactly when the stored length
differs from the sentinel. -/
theorem clear_erase_present_semantics (store : BlobStore) (a : ColKey) :
    members_present (members_clear store a) a = true
    ∧ ukv_read_length (members_clear store a) a = 0
    ∧ members_present (members_erase store a) a = false
    ∧ ukv_read_length (members_erase store a) a = ukv_val_len_missing
    ∧ (∀ b, members_present store b = true ↔ ukv_read_length store b ≠ ukv_val_len_missing) := by
  have hc : members_clear store a a = some [] := by
    simp [members_clear, ukv_write_blob]
  have he : members_erase store a a = none := by
    simp [members_erase, ukv_write_blob]
  refine ⟨?_, ?_, ?_, ?_, ?_⟩
  · simp [members_present, ukv_read_length, hc, ukv_val_len_missing]
  · simp [ukv_read_length, hc]
  · simp [members_present, ukv_read_length, he]
  · simp [ukv_read_length, he]
  · intro b
    simp [members_present, bne_iff_ne]

/-! ## Claim C9: canonical-format passthrough (ukv_docs_write / ukv_docs_read) -/

/-- The optional strided fields argument of the docs entry points. -/
inductive FieldsArg where
  | noFields
  | broadcast (f : Option String)
  | perTask (fs : List (Option String))

/-- The has_fields test of the entry points (logic_docs.cpp lines 850
and 919, members_ref.hpp lines 208 and 273):
`fields && (!fields.repeats() || *fields)` — a null base pointer, or a
zero-stride broadcast whose single entry is a null pointer, counts as
no fields; any per-task (non-zero-stride) array counts as fields. -/
def has_fields : FieldsArg → Bool
  | .noFields => false
  | .broadcast none => false
  | .broadcast (some _) => true
  | .perTask _ => true

/-- Modelled from the spec (blob layer passes requests through
unchanged): plain `ukv_read` over a batch of addresses. -/
def ukv_read_blobs (store : BlobStore) (addrs : List ColKey) : List (Option (List Nat)) :=
  addrs.map store

/-- Observable outcome of a `ukv_docs_write` call: either the request
was forwarded verbatim to the substrate (with the store it produces),
or it went down a parse/serialise pipeline (`read_modify_write` when
the flag is true, `replace_docs` otherwise — both modelled above). -/
inductive DocsWriteRoute where
  | forwarded (result : BlobStore)
  | parseSerialise (rmwPath : Bool)

/-- Embedding of the dispatch of `ukv_docs_write` (logic_docs.cpp,
lines 846-889): with no fields and the canonical msgpack format the
calls tail-calls the plain `ukv_write` on the very same arguments;
otherwise it picks `read_modify_write` (fields present or a patch
format) or `replace_docs`. -/
def ukv_docs_write (store : BlobStore) (fields : FieldsArg) (fmt : Format)
    (tasks : List (ColKey × Option (List Nat))) : DocsWriteRoute :=
  if has_fields fields = false ∧ fmt = Format.msgpack then
    DocsWriteRoute.forwarded (ukv_write_blob store tasks)
  else
    DocsWriteRoute.parseSerialise
      (has_fields fields || fmt == Format.jsonPatch || fmt == Format.jsonMergePatch)

/-- Observable outcome of a `ukv_docs_read` call. -/
inductive DocsReadRoute where
  | forwardedR (result : List (Option (List Nat)))
  | parseSerialiseR

/-- Embedding of the dispatch of `ukv_docs_read` (logic_docs.cpp,
lines 891-968): with no fields and the canonical msgpack format it
tail-calls the plain `ukv_read` on the same arguments; otherwise it
parses and re-serialises through `read_docs`. -/
def ukv_docs_read (store : BlobStore) (fields : FieldsArg) (fmt : Format)
    (addrs : List ColKey) : DocsReadRoute :=
  if has_fields fields = false ∧ fmt = Format.msgpack then
    DocsReadRoute.forwardedR (ukv_read_blobs store addrs)
  else DocsReadRoute.parseSerialiseR

/-- Claim C9: a docs_write / docs_read call is forwarded verbatim to
the plain blob `ukv_write` / `ukv_read` on the same arguments exactly
when no field is supplied and the format is the canonical internal
msgpack; any other format or any supplied fields array takes the
parse/serialise path instead. -/
theorem docs_passthrough_refinement (store : BlobStore) (fields : FieldsArg) (fmt : Format)
    (tasks : List (ColKey × Option (List Nat))) (addrs : List ColKey) :
    (ukv_docs_write store fields fmt tasks
        = DocsWriteRoute.forwarded (ukv_write_blob store tasks)
      ↔ has_fields fields = false ∧ fmt = Format.msgpack)
    ∧ (ukv_docs_read store fields fmt addrs
        = DocsReadRoute.forwardedR (ukv_read_blobs store addrs)
      ↔ has_fields fields = false ∧ fmt = Format.msgpack) := by
  constructor
  · unfold ukv_docs_write
    split
    · next hcond => exact ⟨fun _ => hcond, fun _ => rfl⟩
    · next hcond =>
      exact ⟨fun h => DocsWriteRoute.noConfusion h, fun hc => absurd hc hcond⟩
  · unfold ukv_docs_read
    split
    · next hcond => exact ⟨fun _ => hcond, fun _ => rfl⟩
    · next hcond =>
      exact ⟨fun h => DocsReadRoute.noConfusion h, fun hc => absurd hc hcond⟩

/-- Empty blob store used by the C9 witness. -/
def c9_store : BlobStore := fun _ => none

/-- Claim C9, witness: a msgpack-format call with no fields is
forwarded verbatim in both directions. -/
theorem docs_passthrough_witness :
    ukv_docs_write c9_store FieldsArg.noFields Format.msgpack [(ColKey.mk 0 1, some [7])]
      = DocsWriteRoute.forwarded (ukv_write_blob c9_store [(ColKey.mk 0 1, some [7])])
    ∧ ukv_docs_read c9_store FieldsArg.noFields Format.msgpack [ColKey.mk 0 1]
      = DocsReadRoute.forwardedR (ukv_read_blobs c9_store [ColKey.mk 0 1]) :=
  ⟨(docs_passthrough_refinement c9_store FieldsArg.noFields Format.msgpack
      [(ColKey.mk 0 1, some [7])] [ColKey.mk 0 1]).1.mpr ⟨rfl, rfl⟩,
   (docs_passthrough_refinement c9_store FieldsArg.noFields Format.msgpack
      [(ColKey.mk 0 1, some [7])] [ColKey.mk 0 1]).2.mpr ⟨rfl, rfl⟩⟩

/-! ## Claim C10: gather with null bitmap out-parameters -/

/-- The three per-cell bitmap targets of the gather export. -/
inductive BitTarget where
  | valid
  | convert
  | collide
deriving DecidableEq, Repr

/-- The sequence of bitmap bit writes `export_scalar_column` performs
for one cell, in source order: every case writes the conversion bit,
then the collision bit, then the validity bit LAST (the property the
redirect comment at lines 1462-1465 relies on). -/
def scalar_bit_ops (T : ScalarT) (v : JVal) : List (BitTarget × Bool) :=
  match v with
  | .null => [(.convert, false), (.collide, false), (.valid, false)]
  | .discarded => [(.convert, false), (.collide, true), (.valid, false)]
  | .objNil => [(.convert, false), (.collide, true), (.valid, false)]
  | .objCons _ _ _ => [(.convert, false), (.collide, true), (.valid, false)]
  | .arrNil => [(.convert, false), (.collide, true), (.valid, false)]
  | .arrCons _ _ => [(.convert, false), (.collide, true), (.valid, false)]
  | .bin bs =>
    if bs.length = sizeof_scalar T then [(.convert, true), (.collide, false), (.valid, true)]
    else [(.convert, false), (.collide, true), (.valid, false)]
  | .str s =>
    match from_chars_full T s with
    | some _ => [(.convert, true), (.collide, false), (.valid, true)]
    | none => [(.convert, false), (.collide, true), (.valid, false)]
  | .boolean _ => [(.convert, !is_bool_t T), (.collide, false), (.valid, true)]
  | .numInt _ => [(.convert, !is_signed_integral T), (.collide, false), (.valid, true)]
  | .numUns _ => [(.convert, !is_unsigned_cpp T), (.collide, false), (.valid, true)]
  | .numFloat _ => [(.convert, !is_floating T), (.collide, false), (.valid, true)]

/-- The sequence of bitmap bit writes `export_string_column` performs
for one cell, in source order: again the validity bit is written last
in every case. -/
def string_bit_ops (v : JVal) : List (BitTarget × Bool) :=
  match v with
  | .null => [(.convert, false), (.collide, false), (.valid, false)]
  | .discarded => [(.convert, false), (.collide, true), (.valid, false)]
  | .objNil => [(.convert, false), (.collide, true), (.valid, false)]
  | .objCons _ _ _ => [(.convert, false), (.collide, true), (.valid, false)]
  | .arrNil => [(.convert, false), (.collide, true), (.valid, false)]
  | .arrCons _ _ => [(.convert, false), (.collide, true), (.valid, false)]
  | .bin _ => [(.convert, false), (.collide, false), (.valid, true)]
  | .str _ => [(.convert, false), (.collide, false), (.valid, true)]
  | .boolean _ => [(.convert, true), (.collide, false), (.valid, true)]
  | .numInt i => [(.convert, true), (.collide, !print_int_fits i), (.valid, print_int_fits i)]
  | .numUns n => [(.convert, true), (.collide, !print_uns_fits n), (.valid, print_uns_fits n)]
  | .numFloat x =>
    [(.convert, true), (.collide, !print_float_fits x), (.valid, print_float_fits x)]

/-- One bit write against three separate per-cell bits. -/
def apply_bit_op (b : CellBits) (op : BitTarget × Bool) : CellBits :=
  match op.1 with
  | .valid => ⟨op.2, b.convert, b.collide⟩
  | .convert => ⟨b.valid, op.2, b.collide⟩
  | .collide => ⟨b.valid, b.convert, op.2⟩

/-- Execute a cell's bit writes against three separate bitmaps (the
caller supplied all three out-parameters), from arbitrary uninitialized
arena bits. -/
def exec_bit_ops (init : CellBits) (ops : List (BitTarget × Bool)) : CellBits :=
  ops.foldl apply_bit_op init

/-- Execute a cell's bit writes when the conversion and collision
bitmap pointers are redirected into the validity bitmap storage (lines
1466-1472): all three targets alias the same bit. -/
def exec_bit_ops_aliased (init : Bool) (ops : List (BitTarget × Bool)) : Bool :=
  ops.foldl (fun _ op => op.2) init

/-- Column assembly of `ukv_docs_gather` (lines 1553-1559): the
per-field conversion and collision pointer arrays are read through the
caller-supplied out-parameters UNCONDITIONALLY
(`(*c_result_bitmap_converted)[field_idx]` and the collision twin),
although those out-parameters are only written to when they are
non-null (lines 1483-1494).  A null out-parameter is therefore
dereferenced before any cell is exported; the dereference is modelled
as `none`. -/
def gather_column_begin (wantsConversions wantsCollisions : Bool) : Option Unit :=
  if wantsConversions && wantsCollisions then some () else none

/-- Claim C10 (the code evaluated at the failing input, plus the
property the source comment intends): (a) a docs_gather call passing
NULL for the conversion and/or collision bitmap out-parameter reaches
the column assembly, which dereferences that NULL pointer (modelled
`none`) — the call is not safe, contradicting the claim; (b) the
redirect idea itself is sound: in every cell the validity bit is
written last, so executing a cell's bit writes with all three targets
aliased into the validity storage leaves exactly the validity bit that
the separate-bitmap execution produces, from any initial bit
contents. -/
theorem gather_null_bitmap_params :
    gather_column_begin false true = none
    ∧ gather_column_begin true false = none
    ∧ gather_column_begin false false = none
    ∧ (∀ (T : ScalarT) (v : JVal) (i : CellBits) (b : Bool),
        exec_bit_ops_aliased b (scalar_bit_ops T v) = (exec_bit_ops i (scalar_bit_ops T v)).valid)
    ∧ (∀ (v : JVal) (i : CellBits) (b : Bool),
        exec_bit_ops_aliased b (string_bit_ops v) = (exec_bit_ops i (string_bit_ops v)).valid) := by
  refine ⟨rfl, rfl, rfl, ?_, ?_⟩
  · intro T v i b
    cases v with
    | bin bs =>
      simp only [scalar_bit_ops]
      split <;> rfl
    | str s =>
      simp only [scalar_bit_ops]
      cases hfc : from_chars_full T s <;> rfl
    | _ => rfl
  · intro v i b
    cases v <;> rfl
